import Mathlib

/-!
Verification development for the axe-cli LLDB scripts
(`fetch_frontmost_view.py`, `fetch_hierarchy.py`, `fetch_swiftui_tree.py`).

The Python scripts submit ObjC / Swift expressions into an attached target
process through an evaluation bridge.  This file shallowly embeds:

* the view-controller containment traversal that the ObjC expression in
  `fetch_frontmost_view.py` runs inside the target (`frontmostStep`,
  `codeLoop`);
* the `%p` pointer rendering and the `0x[0-9a-fA-F]+` regex search used to
  parse the traversal result out of free-text evaluator output
  (`renderPtr`, `findHexL`);
* the reflective SwiftUI tree flattening (`extractNode`) performed by the
  Swift closure `extractNode` in `fetch_swiftui_tree.py`;
* the two evaluation-bridge helpers (`run_expression`,
  `run_swift_expression`) and the three LLDB commands as functions of a
  responder describing the target side of the bridge.
-/

/-! ## Generic string helpers (Python `in`, `str.split`) -/

/-- Python substring test for `List Char`: `pat` occurs somewhere in `l`. -/
def listContains (pat : List Char) : List Char → Bool
  | [] => pat.isPrefixOf []
  | c :: rest => pat.isPrefixOf (c :: rest) || listContains pat rest

/-- Python `pat in s` (substring containment, empty pattern always matches). -/
def strContains (s pat : String) : Bool :=
  listContains pat.toList s.toList

/-- Helper for `pySplit`: accumulate the current word (reversed) and the
words found so far (reversed), walking the character list. -/
def splitWsAux : List Char → List Char → List String → List String
  | [], cur, acc =>
    (if cur.isEmpty then acc else String.mk cur.reverse :: acc).reverse
  | c :: rest, cur, acc =>
    if c.isWhitespace then
      splitWsAux rest [] (if cur.isEmpty then acc else String.mk cur.reverse :: acc)
    else
      splitWsAux rest (c :: cur) acc

/-- Python `str.split()` with no argument: split on runs of whitespace and
drop empty words.  Used by `fetch_swiftui_tree` for `command.strip().split()`
(leading/trailing whitespace yields no extra words, so the prior `strip()`
is absorbed). -/
def pySplit (s : String) : List String :=
  splitWsAux s.toList [] []

/-! ## Hexadecimal rendering (`%p`) and regex extraction (`0x[0-9a-fA-F]+`) -/

/-- One hexadecimal digit, lowercase, as produced by `%p` formatting. -/
def hexDigitChar : Nat → Char
  | 0 => '0' | 1 => '1' | 2 => '2' | 3 => '3' | 4 => '4'
  | 5 => '5' | 6 => '6' | 7 => '7' | 8 => '8' | 9 => '9'
  | 10 => 'a' | 11 => 'b' | 12 => 'c' | 13 => 'd' | 14 => 'e' | _ => 'f'

/-- Fuel-driven base-16 digit expansion (most significant digit first);
the fuel is always at least the digit count when instantiated as in
`hexDigits`, so the fuel-exhausted branch is never the final word. -/
def hexCoreAux : Nat → Nat → List Char → List Char
  | 0, n, acc => hexDigitChar (n % 16) :: acc
  | f + 1, n, acc =>
    if n < 16 then hexDigitChar n :: acc
    else hexCoreAux f (n / 16) (hexDigitChar (n % 16) :: acc)

/-- Hexadecimal digits of `a`, lowercase, no leading zeros (except `0`). -/
def hexDigits (a : Nat) : List Char :=
  hexCoreAux a a []

/-- The output of `[NSString stringWithFormat:@"%p", vc.view]` for a view
whose address is `a`: `0x` followed by lowercase hex digits. -/
def renderPtr (a : Nat) : String :=
  String.mk ('0' :: 'x' :: hexDigits a)

/-- Character class `[0-9a-fA-F]` of the address regex. -/
def isHexDigitCh (c : Char) : Bool :=
  ('0' ≤ c && c ≤ '9') || ('a' ≤ c && c ≤ 'f') || ('A' ≤ c && c ≤ 'F')

/-- Try to match the regex `0x[0-9a-fA-F]+` anchored at the head of the
list, returning the (greedy) match. -/
def hexAt : List Char → Option (List Char)
  | c0 :: c1 :: c2 :: rest =>
    if c0 = '0' ∧ c1 = 'x' ∧ isHexDigitCh c2 then
      some (c0 :: c1 :: c2 :: rest.takeWhile isHexDigitCh)
    else none
  | _ => none

/-- Model of `re.search(r"0x[0-9a-fA-F]+", ·)`: first (leftmost) match in the list. -/
def findHexL : List Char → Option (List Char)
  | [] => none
  | c :: rest =>
    match hexAt (c :: rest) with
    | some r => some r
    | none => findHexL rest

/-- Model of `m = re.search(r"0x[0-9a-fA-F]+", output); m.group(0)` on a string. -/
def extractAddress (s : String) : Option String :=
  (findHexL s.toList).map String.mk

/-! ## The view-controller containment graph (`fetch_frontmost_view.py`)

Nodes of the live containment graph are identified by naturals; the graph
supplies, for each node, exactly the observations the ObjC expression
makes: `presentedViewController`, the `UINavigationController` /
`UITabBarController` class tests, `topViewController`,
`selectedViewController`, `childViewControllers`, `viewIfLoaded != nil`,
`viewIfLoaded.window != nil`, and the address of `vc.view`. -/

structure NodeInfo where
  presented : Option Nat
  isNav : Bool
  isTab : Bool
  top : Option Nat
  selected : Option Nat
  children : List Nat
  viewLoaded : Bool
  onWindow : Bool
  viewAddr : Nat

structure VCGraph where
  nodes : Nat → NodeInfo
  root : Nat

/-- The child scan of the ObjC `for (UIViewController *child in
vc.childViewControllers)` loop: the first child whose
`viewIfLoaded != nil && viewIfLoaded.window != nil`. -/
def visibleChild (g : VCGraph) (cs : List Nat) : Option Nat :=
  cs.find? (fun c => (g.nodes c).viewLoaded && (g.nodes c).onWindow)

/-- One iteration of the ObjC `while (vc != prev)` body, transcribed from
`fetch_frontmost_view.py` lines 43-62: presented child first; else the
`isKindOfClass:UINavigationController` branch (which stays put when
`topViewController` is nil or equals `vc`); else the
`isKindOfClass:UITabBarController` branch (likewise); else the visible
child scan. -/
def frontmostStep (g : VCGraph) (vc : Nat) : Nat :=
  let n := g.nodes vc
  match n.presented with
  | some p => p
  | none =>
    if n.isNav then
      match n.top with
      | some t => if t = vc then vc else t
      | none => vc
    else if n.isTab then
      match n.selected with
      | some s => if s = vc then vc else s
      | none => vc
    else
      match visibleChild g n.children with
      | some c => c
      | none => vc

/-- The ObjC loop `prev = nil; while (vc != prev) { prev = vc; vc = step vc }`
with explicit fuel bounding the number of body executions; `none` means the
fuel ran out with the loop still active (the source loop would still be
running). -/
def codeLoop (g : VCGraph) : Option Nat → Nat → Nat → Option Nat
  | prev, vc, fuel =>
    if prev = some vc then some vc
    else
      match fuel with
      | 0 => none
      | f + 1 => codeLoop g (some vc) (frontmostStep g vc) f

/-- The full target-side computation of `fetch_frontmost_view.py` on the
evaluation success path: run the loop from the root, format the final
node's view address with `%p`, and parse it back out of the output with
the `0x[0-9a-fA-F]+` regex. -/
def locateFrontmost (g : VCGraph) (fuel : Nat) : Option String :=
  match codeLoop g none g.root fuel with
  | none => none
  | some v => extractAddress (renderPtr ((g.nodes v).viewAddr))

/-- Generic "repeat until the current node equals the previous iteration's
node" combinator over a descent rule, as the spec phrases the traversal. -/
def fixIter (s : VCGraph → Nat → Nat) (g : VCGraph) (v : Nat) : Nat → Option Nat
  | 0 => none
  | fuel + 1 =>
    if s g v = v then some v else fixIter s g (s g v) fuel

/-- Modelled from the spec claim C1 wording, strict else-chain reading:
rule (2) fires only when the node is Sequencing AND its top child exists
and differs; when that compound condition fails the iteration falls
through to rule (3) and then to the child scan (4).  (The source instead
commits to the Sequencing/Selecting branch on the class test alone and
stays put inside it.) -/
def seqDescendSpec (n : NodeInfo) (v : Nat) : Option Nat :=
  if n.isNav then
    match n.top with
    | some t => if t = v then none else some t
    | none => none
  else none

/-- Modelled from the spec claim C1 wording: rule (3), strict else-chain
reading, for Selecting (tab-style) nodes. -/
def selDescendSpec (n : NodeInfo) (v : Nat) : Option Nat :=
  if n.isTab then
    match n.selected with
    | some s => if s = v then none else some s
    | none => none
  else none

/-- Modelled from the spec claim C1 wording (strict else-chain): one
descent of the claimed algorithm. -/
def stepSpec (g : VCGraph) (v : Nat) : Nat :=
  let n := g.nodes v
  match n.presented with
  | some p => p
  | none =>
    match seqDescendSpec n v with
    | some t => t
    | none =>
      match selDescendSpec n v with
      | some s => s
      | none => (visibleChild g n.children).getD v

/-- One descent as the amended claim words it: (1) a non-null presented
child wins; else (2) at a Sequencing node descend to its top child when
that exists and differs, otherwise stay (never trying later rules); else
(3) at a Selecting node likewise with the selected child; else (4) the
first child in order whose display surface is loaded and attached, staying
put when none qualifies. -/
def stepClaim (g : VCGraph) (v : Nat) : Nat :=
  let n := g.nodes v
  match n.presented with
  | some p => p
  | none =>
    if n.isNav then
      (match n.top with
       | some t => if t = v then v else t
       | none => v)
    else if n.isTab then
      (match n.selected with
       | some s => if s = v then v else s
       | none => v)
    else (visibleChild g n.children).getD v

/-! ### Lemmas about the traversal and the address round trip -/

theorem stepClaim_eq_frontmostStep (g : VCGraph) (v : Nat) :
    stepClaim g v = frontmostStep g v := by
  unfold stepClaim frontmostStep
  cases hp : (g.nodes v).presented <;> simp [hp]
  cases hn : (g.nodes v).isNav <;> cases ht : (g.nodes v).isTab <;>
    cases htop : (g.nodes v).top <;> cases hsel : (g.nodes v).selected <;>
    cases hvc : visibleChild g (g.nodes v).children <;>
    simp [hn, ht, htop, hsel, hvc, Option.getD]

theorem codeLoop_eq_fixIter_aux (g : VCGraph) :
    ∀ f v, codeLoop g (some v) (frontmostStep g v) f =
      fixIter frontmostStep g v (f + 1) := by
  intro f
  induction f with
  | zero =>
    intro v
    unfold codeLoop fixIter
    by_cases h : frontmostStep g v = v
    · simp [h]
    · have hne : ¬ some v = some (frontmostStep g v) := by
        intro hc
        exact h (Option.some_inj.mp hc).symm
      rw [if_neg hne, if_neg h]
      rfl
  | succ f ih =>
    intro v
    unfold codeLoop fixIter
    by_cases h : frontmostStep g v = v
    · simp [h]
    · have hne : ¬ some v = some (frontmostStep g v) := by
        intro hc
        exact h (Option.some_inj.mp hc).symm
      rw [if_neg hne, if_neg h]
      exact ih (frontmostStep g v)

theorem codeLoop_eq_fixIter (g : VCGraph) (fuel : Nat) :
    codeLoop g none g.root fuel = fixIter frontmostStep g g.root fuel := by
  cases fuel with
  | zero => unfold codeLoop fixIter; simp
  | succ f =>
    unfold codeLoop
    simp only [reduceCtorEq, if_false]
    exact codeLoop_eq_fixIter_aux g f g.root

theorem hexDigitChar_hex (m : Nat) : isHexDigitCh (hexDigitChar m) = true := by
  match m with
  | 0 | 1 | 2 | 3 | 4 | 5 | 6 | 7 | 8 | 9 | 10 | 11 | 12 | 13 | 14 => decide
  | n + 15 =>
    show isHexDigitCh 'f' = true
    decide

theorem hexCoreAux_all (f : Nat) :
    ∀ n acc, acc.all isHexDigitCh = true →
      (hexCoreAux f n acc).all isHexDigitCh = true := by
  induction f with
  | zero =>
    intro n acc hacc
    simp [hexCoreAux, hexDigitChar_hex, hacc]
  | succ f ih =>
    intro n acc hacc
    unfold hexCoreAux
    by_cases h : n < 16
    · simp [h, hexDigitChar_hex, hacc]
    · simp only [h, if_false]
      exact ih (n / 16) _ (by simp [hexDigitChar_hex, hacc])

theorem hexCoreAux_ne_nil (f n : Nat) (acc : List Char) :
    hexCoreAux f n acc ≠ [] := by
  cases f with
  | zero => simp [hexCoreAux]
  | succ f =>
    unfold hexCoreAux
    by_cases h : n < 16
    · simp [h]
    · simp only [h, if_false]
      exact hexCoreAux_ne_nil f (n / 16) _

theorem takeWhile_of_all {p : Char → Bool} :
    ∀ l : List Char, l.all p = true → l.takeWhile p = l := by
  intro l hl
  induction l with
  | nil => rfl
  | cons c rest ih =>
    simp only [List.all_cons, Bool.and_eq_true] at hl
    simp [List.takeWhile, hl.1, ih hl.2]

theorem extractAddress_renderPtr (a : Nat) :
    extractAddress (renderPtr a) = some (renderPtr a) := by
  have hne := hexCoreAux_ne_nil a a []
  have hall := hexCoreAux_all a a [] (by decide)
  obtain ⟨c, l, hcl⟩ := List.exists_cons_of_ne_nil hne
  have hdig : hexDigits a = c :: l := hcl
  rw [hcl] at hall
  simp only [List.all_cons, Bool.and_eq_true] at hall
  have hhex : hexAt ('0' :: 'x' :: c :: l) =
      some ('0' :: 'x' :: c :: l.takeWhile isHexDigitCh) := by
    simp [hexAt, hall.1]
  have hfind : findHexL ('0' :: 'x' :: c :: l) = some ('0' :: 'x' :: c :: l) := by
    unfold findHexL
    rw [hhex]
    simp [takeWhile_of_all l hall.2]
  show (findHexL (String.mk ('0' :: 'x' :: hexDigits a)).toList).map String.mk =
    some (String.mk ('0' :: 'x' :: hexDigits a))
  have htl : (String.mk ('0' :: 'x' :: hexDigits a)).toList =
      '0' :: 'x' :: hexDigits a := rfl
  rw [htl, hdig, hfind]
  rfl

theorem fixIter_mono (s : VCGraph → Nat → Nat) (g : VCGraph) :
    ∀ f v w, fixIter s g v f = some w → fixIter s g v (f + 1) = some w := by
  intro f
  induction f with
  | zero =>
    intro v w h
    exact absurd h (by unfold fixIter; simp)
  | succ f ih =>
    intro v w h
    unfold fixIter at h ⊢
    by_cases hs : s g v = v
    · rw [if_pos hs] at h ⊢; exact h
    · rw [if_neg hs] at h ⊢; exact ih _ _ h

theorem fixIter_mono_le (s : VCGraph → Nat → Nat) (g : VCGraph) (f f' : Nat)
    (hle : f ≤ f') (v w : Nat) (h : fixIter s g v f = some w) :
    fixIter s g v f' = some w := by
  induction f', hle using Nat.le_induction with
  | base => exact h
  | succ f' hle ih => exact fixIter_mono s g f' v w ih

/-- Any rank function that strictly decreases along actual descents bounds
the loop: with rank at most `n`, `n` further descents reach a fixed point. -/
theorem fixIter_of_rank (g : VCGraph) (d : Nat → Nat)
    (hdec : ∀ v, frontmostStep g v ≠ v → d (frontmostStep g v) < d v) :
    ∀ n v, d v ≤ n →
      ∃ w, fixIter frontmostStep g v (n + 1) = some w ∧ frontmostStep g w = w := by
  intro n
  induction n with
  | zero =>
    intro v hv
    by_cases h : frontmostStep g v = v
    · exact ⟨v, by unfold fixIter; rw [if_pos h], h⟩
    · exact absurd (Nat.lt_of_lt_of_le (hdec v h) hv) (Nat.not_lt_zero _)
  | succ n ih =>
    intro v hv
    by_cases h : frontmostStep g v = v
    · exact ⟨v, by unfold fixIter; rw [if_pos h], h⟩
    · have hled : d (frontmostStep g v) ≤ n :=
        Nat.lt_succ_iff.mp (Nat.lt_of_lt_of_le (hdec v h) hv)
      obtain ⟨w, hw, hfix⟩ := ih (frontmostStep g v) hled
      exact ⟨w, by unfold fixIter; rw [if_neg h]; exact hw, hfix⟩

/-! ### Concrete containment graphs -/

/-- A detached plain leaf controller: nothing presented, not a container,
no children, view not loaded. -/
def leafInfo : NodeInfo :=
  { presented := none, isNav := false, isTab := false, top := none,
    selected := none, children := [], viewLoaded := false, onWindow := false,
    viewAddr := 0 }

/-- Root of the counterexample graph: a navigation-style controller whose
`topViewController` is nil but which has a child with a loaded, attached
view.  The source loop stays here; the spec's else-chain descends. -/
def cexNavInfo : NodeInfo :=
  { presented := none, isNav := true, isTab := false, top := none,
    selected := none, children := [1], viewLoaded := true, onWindow := true,
    viewAddr := 16 }

/-- The visible child of the counterexample root (view address `0x20`). -/
def cexChildInfo : NodeInfo :=
  { presented := none, isNav := false, isTab := false, top := none,
    selected := none, children := [], viewLoaded := true, onWindow := true,
    viewAddr := 32 }

def cexGraph : VCGraph :=
  { nodes := fun v =>
      match v with
      | 0 => cexNavInfo
      | 1 => cexChildInfo
      | _ => leafInfo,
    root := 0 }

/-- Witness graph for termination: the root presents node 1, a leaf. -/
def wGraph : VCGraph :=
  { nodes := fun v =>
      match v with
      | 0 => { presented := some 1, isNav := false, isTab := false,
               top := none, selected := none, children := [],
               viewLoaded := true, onWindow := true, viewAddr := 16 }
      | _ => { presented := none, isNav := false, isTab := false,
               top := none, selected := none, children := [],
               viewLoaded := true, onWindow := true, viewAddr := 32 },
    root := 0 }

/-- Rank function for `wGraph`: the root is one descent from the bottom. -/
def wRank (v : Nat) : Nat :=
  match v with
  | 0 => 1
  | _ => 0

/-! ### Claims C1 and C5 -/

/-- Claim C1, counterexample.  At `cexGraph` — a navigation-style root with
nil `topViewController` and a child whose view is loaded and attached — the
source computation stays at the root (address `0x10`), while the claimed
descent chain ("else (4) scan the children") falls through to the visible
child (address `0x20`).  So LocateFrontmost does not compute its result by
the claimed else-chain iteration. -/
theorem locateFrontmost_spec_chain_counterexample :
    locateFrontmost cexGraph 3 = some "0x10" ∧
    (fixIter stepSpec cexGraph cexGraph.root 3).map
      (fun v => renderPtr ((cexGraph.nodes v).viewAddr)) = some "0x20" ∧
    locateFrontmost cexGraph 3 ≠
      (fixIter stepSpec cexGraph cexGraph.root 3).map
        (fun v => renderPtr ((cexGraph.nodes v).viewAddr)) := by
  refine ⟨by decide, by decide, ?_⟩
  decide

/-- Claim C1 as amended: for every containment graph and every fuel bound,
the source computation of `fetch_frontmost_view.py` (while-loop with a
`prev` register, `%p` rendering, and regex extraction of `0x` plus hex
digits) equals iterating the amended descent rule `stepClaim` to a fixed
point — the rule in which the Sequencing/Selecting branches are keyed on
the node's shape alone and stay put when their top/selected child is
missing or equal, never falling through to the child scan — and then
rendering the final node's display-surface address. -/
theorem locateFrontmost_fixpoint_of_descent (g : VCGraph) (fuel : Nat) :
    locateFrontmost g fuel =
      (fixIter stepClaim g g.root fuel).map
        (fun v => renderPtr ((g.nodes v).viewAddr)) := by
  have hs : stepClaim = frontmostStep :=
    funext fun g' => funext fun v => stepClaim_eq_frontmostStep g' v
  rw [hs]
  unfold locateFrontmost
  rw [codeLoop_eq_fixIter]
  cases h : fixIter frontmostStep g g.root fuel with
  | none => simp
  | some v => simp [extractAddress_renderPtr]

/-- Claim C5: if the containment graph admits a rank function `d` that is
at most `N` at the root and strictly decreases along every actual descent
(the shape "acyclic in the Presenting/Sequencing/Selecting directions, of
bounded depth `N`"), then the loop reaches its fixed point `w` — the
frontmost node — within `N` descents, and LocateFrontmost returns the
rendered display-surface address of `w` for every fuel bound of at least
`N + 1` body executions. -/
theorem locateFrontmost_terminates_bounded (g : VCGraph) (N : Nat) (d : Nat → Nat)
    (hroot : d g.root ≤ N)
    (hdec : ∀ v, frontmostStep g v ≠ v → d (frontmostStep g v) < d v) :
    ∃ w, fixIter frontmostStep g g.root (N + 1) = some w ∧
      frontmostStep g w = w ∧
      ∀ f, N + 1 ≤ f →
        locateFrontmost g f = some (renderPtr ((g.nodes w).viewAddr)) := by
  obtain ⟨w, hw, hfix⟩ := fixIter_of_rank g d hdec N g.root hroot
  refine ⟨w, hw, hfix, ?_⟩
  intro f hf
  unfold locateFrontmost
  rw [codeLoop_eq_fixIter]
  rw [fixIter_mono_le frontmostStep g (N + 1) f hf g.root w hw]
  exact extractAddress_renderPtr _

/-- Witness for C5 at `wGraph` (root presents a leaf, depth 1). -/
theorem locateFrontmost_terminates_bounded_witness :
    ∃ w, fixIter frontmostStep wGraph wGraph.root (1 + 1) = some w ∧
      frontmostStep wGraph w = w ∧
      ∀ f, 1 + 1 ≤ f →
        locateFrontmost wGraph f = some (renderPtr ((wGraph.nodes w).viewAddr)) :=
  locateFrontmost_terminates_bounded wGraph 1 wRank (by decide)
    (by
      intro v h
      match v with
      | 0 => exact (by decide : wRank (frontmostStep wGraph 0) < wRank 0)
      | n + 1 => exact absurd rfl h)

/-! ## Reflective SwiftUI tree flattening (`fetch_swiftui_tree.py`)

The Swift closure `extractNode` walks a `_ViewDebug.Data` value through
`Mirror`.  A mirrored node is a list of labelled fields; a field's payload
is one of: a mapping (a `Dictionary`, whose mirror children are entries,
each entry's mirror children being its components — normally a key/value
pair), a sequence of nodes (castable to `[_ViewDebug.Data]`), or an atomic
value (whose mirror has no children, so the `"data"` arm finds nothing to
insert).  Swift string interpolation of keys and values is modelled by
`stringify` over a small universe of values. -/

inductive SwiftVal : Type where
  | int : Int → SwiftVal
  | str : String → SwiftVal
  | bool : Bool → SwiftVal
  | other : String → SwiftVal

/-- One decimal digit. -/
def decDigitChar : Nat → Char
  | 0 => '0' | 1 => '1' | 2 => '2' | 3 => '3' | 4 => '4'
  | 5 => '5' | 6 => '6' | 7 => '7' | 8 => '8' | _ => '9'

/-- Fuel-driven base-10 digit expansion, as in `hexCoreAux`. -/
def decCoreAux : Nat → Nat → List Char → List Char
  | 0, n, acc => decDigitChar (n % 10) :: acc
  | f + 1, n, acc =>
    if n < 10 then decDigitChar n :: acc
    else decCoreAux f (n / 10) (decDigitChar (n % 10) :: acc)

def natDecStr (n : Nat) : String := String.mk (decCoreAux n n [])

/-- Decimal rendering of an integer, as Swift interpolation prints `Int`. -/
def intStr : Int → String
  | .ofNat n => natDecStr n
  | .negSucc n => String.mk ('-' :: decCoreAux (n + 1) (n + 1) [])

/-- Swift `"\(v)"` string interpolation on the modelled value universe. -/
def stringify : SwiftVal → String
  | .int n => intStr n
  | .str s => s
  | .bool b => if b then "true" else "false"
  | .other d => d

mutual
/-- The mirror-visible payload of one field of a `_ViewDebug.Data` value:
a mapping (`Dictionary`, mirror children listed per entry), a sequence of
child nodes (succeeds the `as? [_ViewDebug.Data]` cast), or an atom. -/
inductive VDField : Type where
  | mapF : List (List SwiftVal) → VDField
  | childF : List VDNode → VDField
  | rawF : SwiftVal → VDField

/-- A mirrored `_ViewDebug.Data` value: its labelled fields in declaration
order.  A real `_ViewDebug.Data` always carries both a `data` mapping and a
`childData` array (possibly empty). -/
inductive VDNode : Type where
  | mk : List (String × VDField) → VDNode
end

/-- A value of the output `NSDictionary`: an `NSString` or the `NSArray`
of flattened children. -/
inductive OutVal : Type where
  | s : String → OutVal
  | arr : List (List (String × OutVal)) → OutVal

/-- The output `NSDictionary`, as an insertion-ordered key/value list with
replace-on-duplicate semantics (`insertKV`). -/
abbrev OutMap := List (String × OutVal)

/-- Assignment `result[k] = v` on an `NSMutableDictionary` modelled as an ordered
association list: replace an existing binding, else append. -/
def insertKV (m : OutMap) (k : String) (v : OutVal) : OutMap :=
  if m.any (fun p => p.1 == k) then
    m.map (fun p => if p.1 == k then (k, v) else p)
  else m ++ [(k, v)]

/-- The `case "data"` arm's inner loop: for each mirror entry of the
dictionary, decompose it into its components, skip it unless there are
exactly two (`guard kv.count == 2`), and insert
`stringify key -> stringify value`. -/
def insertEntries : List (List SwiftVal) → OutMap → OutMap
  | [], acc => acc
  | e :: rest, acc =>
    insertEntries rest
      (match e with
       | [k, v] => insertKV acc (stringify k) (OutVal.s (stringify v))
       | _ => acc)

mutual
/-- The Swift `extractNode` closure of `fetch_swiftui_tree.py` lines
16-37: fold the node's mirrored fields into an output dictionary. -/
def extractNode : VDNode → OutMap
  | .mk fields => extractFields fields []

/-- The `for child in m.children` loop of `extractNode`. -/
def extractFields : List (String × VDField) → OutMap → OutMap
  | [], acc => acc
  | (label, f) :: rest, acc => extractFields rest (applyField label f acc)

/-- The `switch child.label` body: the `"data"` arm inserts the stringified
entries when the payload mirrors as a mapping (an atom's mirror has no
children, so it contributes nothing); the `"childData"` arm casts to
`[_ViewDebug.Data]` and stores the flattened children under the reserved
key `"children"`; every other label falls to `default: break`. -/
def applyField : String → VDField → OutMap → OutMap
  | label, .mapF entries, acc =>
    if label = "data" then insertEntries entries acc else acc
  | label, .childF l, acc =>
    if label = "childData" then
      insertKV acc "children" (OutVal.arr (extractChildren l))
    else acc
  | _, .rawF _, acc => acc

/-- Model of `arr.map` applying `extractNode` to each element. -/
def extractChildren : List VDNode → List OutMap
  | [] => []
  | n :: rest => extractNode n :: extractChildren rest
end

/-! ### Claims C2 and C3 -/

/-- C2 counterexample input: a node whose only field is a one-entry
mapping labelled with the private name `data`. -/
def mapNodeData : VDNode := .mk [("data", .mapF [[.str "a", .int 1]])]

/-- C2 counterexample input: the same shape — a one-entry mapping field —
but under a different private name. -/
def mapNodeProps : VDNode := .mk [("props", .mapF [[.str "a", .int 1]])]

/-- Claim C2, counterexample.  `mapNodeData` and `mapNodeProps` are
structurally identical (one mapping-shaped field with the same entry) and
differ only in the private name the schema gives that field; yet the
flattening output differs (`{"a": "1"}` versus `{}`), because the Swift
`switch child.label` selects the mapping field by the name `"data"`, not
by its shape.  So the output does depend on the private field names. -/
theorem extractNode_label_dependence_counterexample :
    extractNode mapNodeData = [("a", OutVal.s "1")] ∧
    extractNode mapNodeProps = [] ∧
    extractNode mapNodeData ≠ extractNode mapNodeProps := by
  refine ⟨rfl, rfl, ?_⟩
  intro h
  rw [show extractNode mapNodeData = [("a", OutVal.s "1")] from rfl,
      show extractNode mapNodeProps = [] from rfl] at h
  simp at h

/-- Claim C2 as amended: the flattening identifies the property-mapping
field by the private name `data` and the child-sequence field by the
private name `childData` (the latter additionally shape-checked by the
array cast); a field under any other label is ignored outright, whatever
its shape, so the output is determined by — and depends on — those two
private names. -/
theorem extractNode_selects_fields_by_name :
    (∀ (label : String) (f : VDField) (rest : List (String × VDField)),
      label ≠ "data" → label ≠ "childData" →
      extractNode (VDNode.mk ((label, f) :: rest)) = extractNode (VDNode.mk rest)) ∧
    (∀ entries, extractNode (VDNode.mk [("data", VDField.mapF entries)]) =
      insertEntries entries []) ∧
    (∀ l, extractNode (VDNode.mk [("childData", VDField.childF l)]) =
      [("children", OutVal.arr (extractChildren l))]) := by
  refine ⟨?_, ?_, ?_⟩
  · intro label f rest h1 h2
    have happ : applyField label f [] = [] := by
      cases f <;> simp [applyField, h1, h2]
    simp [extractNode, extractFields, happ]
  · intro entries
    simp [extractNode, extractFields, applyField]
  · intro l
    simp [extractNode, extractFields, applyField, insertKV]

/-- Witness for C2: a field labelled `size` (not one of the two selected
private names) is ignored by the flattening. -/
theorem extractNode_selects_fields_by_name_witness :
    extractNode (VDNode.mk [("size", VDField.rawF (SwiftVal.int 3))]) =
      extractNode (VDNode.mk []) :=
  extractNode_selects_fields_by_name.1 "size" (VDField.rawF (SwiftVal.int 3)) []
    (by decide) (by decide)

/-- The C3 input's single child: property mapping `{"c": true}`, no
grandchildren — its `childData` array is present and empty, as on every
`_ViewDebug.Data` value. -/
def c3child : VDNode :=
  .mk [("data", .mapF [[.str "c", .bool true]]), ("childData", .childF [])]

/-- The C3 input: property mapping `{"a": 1, "b": "x"}` and exactly one
child, `c3child`. -/
def c3root : VDNode :=
  .mk [("data", .mapF [[.str "a", .int 1], [.str "b", .str "x"]]),
       ("childData", .childF [c3child])]

/-- The output claimed by C3: the child is `{"c": "true"}` with no
`children` key. -/
def c3claimed : OutMap :=
  [("a", OutVal.s "1"), ("b", OutVal.s "x"),
   ("children", OutVal.arr [[("c", OutVal.s "true")]])]

/-- Claim C3, counterexample.  On the claimed input the flattening does
not return the claimed output: the leaf child's `childData` field is
present (an empty array), the cast succeeds, and the child is emitted as
`{"c": "true", "children": []}` — it carries a `children` key the claim's
expected output lacks. -/
theorem extractNode_flattening_counterexample :
    extractNode c3child = [("c", OutVal.s "true"), ("children", OutVal.arr [])] ∧
    extractNode c3root ≠ c3claimed := by
  refine ⟨rfl, ?_⟩
  intro h
  rw [show extractNode c3root =
      [("a", OutVal.s "1"), ("b", OutVal.s "x"),
       ("children", OutVal.arr [[("c", OutVal.s "true"), ("children", OutVal.arr [])]])]
    from rfl] at h
  simp [c3claimed] at h

/-- Claim C3 as amended: on the given input the flattening returns
`{"a": "1", "b": "x", "children": [{"c": "true", "children": []}]}` —
every property value stringified, and the leaf child carrying an empty
reserved `children` key because the child-sequence field exists (empty)
on every node. -/
theorem extractNode_flattening_value :
    extractNode c3root =
      [("a", OutVal.s "1"), ("b", OutVal.s "x"),
       ("children", OutVal.arr [[("c", OutVal.s "true"), ("children", OutVal.arr [])]])] :=
  rfl

/-! ## The evaluation bridge and the three LLDB commands

The bridge functions `_run_expression` (HandleCommand with
`expression -l <lang> -O --`) and `_run_swift_expression`
(`SBFrame.EvaluateExpression` with `SBExpressionOptions`) are modelled as
functions of a responder `EvalRequest → EvalOutcome` describing the target
side.  An `EvalRequest` records exactly what the Python passes for the
submission: which expression, which dialect, and which options
(`SetTimeoutInMicroSeconds`, `SetIgnoreBreakpoints`) — `none` timeout
means the call configures no explicit timeout.  The expression texts
themselves are opaque target-side programs, named by `TargetCode` tags;
their semantics is modelled separately (`locateFrontmost`, `extractNode`,
`envQueryResult`). -/

/-- Python `str.strip()`. -/
def pyStrip (s : String) : String :=
  String.mk ((s.toList.dropWhile Char.isWhitespace).reverse.dropWhile
    Char.isWhitespace).reverse

inductive Dialect : Type where
  | objc
  | swift
deriving DecidableEq

/-- The expressions the three commands submit into the target. -/
inductive TargetCode : Type where
  | envCheck
  | extractTree (address : String)
  | frontmostScan
  | writeAddress (address path : String)
  | dlopenSupport
  | captureAndWrite (path : String)
deriving DecidableEq

structure EvalRequest where
  code : TargetCode
  dialect : Dialect
  timeoutMicros : Option Nat
  ignoreBreakpoints : Bool
deriving DecidableEq

/-- What happened on the target side of one submission: a successful
evaluation with printable output, a submission failure, a target-side
runtime failure, or expiry of the evaluation deadline. -/
inductive EvalOutcome : Type where
  | success (out : String)
  | submitError (msg : String)
  | runtimeError (msg : String)
  | timedOut

/-- The request `_run_expression` submits: a `HandleCommand` call, which
passes no `SBExpressionOptions` — no explicit timeout, no breakpoint
suppression. -/
def runExpressionRequest (c : TargetCode) (d : Dialect) : EvalRequest :=
  { code := c, dialect := d, timeoutMicros := none, ignoreBreakpoints := false }

/-- The request `_run_swift_expression` submits: Swift dialect,
`SetTimeoutInMicroSeconds(60_000_000)`, `SetIgnoreBreakpoints(True)`. -/
def runSwiftRequest (c : TargetCode) : EvalRequest :=
  { code := c, dialect := Dialect.swift, timeoutMicros := some 60000000,
    ignoreBreakpoints := true }

/-- Model of `_run_expression`: return the stripped output when `ret.Succeeded()`,
else `None` — every non-success outcome collapses to `none`. -/
def run_expression (resp : EvalRequest → EvalOutcome) (c : TargetCode)
    (d : Dialect) : Option String :=
  match resp (runExpressionRequest c d) with
  | .success out => some (pyStrip out)
  | _ => none

/-- Model of `_run_swift_expression`: return the object description when
`val.GetError().Success()`, else `None`. -/
def run_swift_expression (resp : EvalRequest → EvalOutcome)
    (c : TargetCode) : Option String :=
  match resp (runSwiftRequest c) with
  | .success out => some out
  | _ => none

/-! ### `fetch_frontmost_view_command` -/

/-- Observable outcome of one `fetch_frontmost_view` invocation:
`result.SetError` message, `result.AppendMessage` message, and whether the
address-persisting write expression was submitted at all. -/
structure FrontmostRun where
  errorMsg : Option String
  successMsg : Option String
  writeSubmitted : Bool

/-- Model of `fetch_frontmost_view_command` of `fetch_frontmost_view.py`: parse the
output path, run the traversal expression, regex-extract the address, then
submit the write expression — discarding its result — and append the
success message unconditionally. -/
def fetch_frontmost_view_command (resp : EvalRequest → EvalOutcome)
    (command : String) : FrontmostRun :=
  let output_path := pyStrip command
  if output_path = "" then
    { errorMsg := some "Usage: fetch_frontmost_view <output_path>",
      successMsg := none, writeSubmitted := false }
  else
    match run_expression resp TargetCode.frontmostScan Dialect.objc with
    | none =>
      { errorMsg := some "Failed to find frontmost view controller's view",
        successMsg := none, writeSubmitted := false }
    | some output =>
      if output = "" then
        { errorMsg := some "Failed to find frontmost view controller's view",
          successMsg := none, writeSubmitted := false }
      else
        match extractAddress output with
        | none =>
          { errorMsg := some ("Could not parse address from: " ++ output),
            successMsg := none, writeSubmitted := false }
        | some address =>
          let _ := run_expression resp
            (TargetCode.writeAddress address output_path) Dialect.objc
          { errorMsg := none,
            successMsg := some ("Frontmost view: " ++ address ++
              " (saved to " ++ output_path ++ ")"),
            writeSubmitted := true }

/-! ### `fetch_hierarchy_command` -/

/-- Observable outcome of one `fetch_hierarchy` invocation. -/
structure HierarchyRun where
  errorMsg : Option String
  successMsg : Option String
  captureSubmitted : Bool

/-- Model of `fetch_hierarchy_command` of `fetch_hierarchy.py`: dlopen the support
library (gate: the evaluation returned output, `is None` test only), then
submit the combined capture-and-write expression. -/
def fetch_hierarchy_command (resp : EvalRequest → EvalOutcome)
    (command : String) : HierarchyRun :=
  let output_path := pyStrip command
  if output_path = "" then
    { errorMsg := some "Usage: fetch_hierarchy <output_path>",
      successMsg := none, captureSubmitted := false }
  else
    match run_expression resp TargetCode.dlopenSupport Dialect.objc with
    | none =>
      { errorMsg := some "Failed to dlopen libViewDebuggerSupport.dylib",
        successMsg := none, captureSubmitted := false }
    | some _ =>
      match run_expression resp (TargetCode.captureAndWrite output_path)
          Dialect.objc with
      | none =>
        { errorMsg := some "Failed to call fetchViewHierarchy or write bplist",
          successMsg := none, captureSubmitted := true }
      | some _ =>
        { errorMsg := none,
          successMsg := some ("View hierarchy saved to " ++ output_path),
          captureSubmitted := true }

/-! ### `fetch_swiftui_tree_command` -/

/-- Observable outcome of one `fetch_swiftui_tree` invocation. -/
structure SwiftTreeRun where
  errorMsg : Option String
  successMsg : Option String
  extractSubmitted : Bool

/-- The precondition error text of `fetch_swiftui_tree.py`. -/
def notSetMsg : String :=
  "SWIFTUI_VIEW_DEBUG_NOT_SET: The target process was not launched with SWIFTUI_VIEW_DEBUG=287. _viewDebugData() requires this environment variable."

/-- The value the env-check Swift expression prints for a target whose
`SWIFTUI_VIEW_DEBUG` variable holds `env` (`?? "NOT_SET"` fallback). -/
def envQueryResult (env : Option String) : String :=
  match env with
  | some v => v
  | none => "NOT_SET"

/-- Model of `fetch_swiftui_tree_command` of `fetch_swiftui_tree.py`.  `persistOk`
abstracts the `json.loads` / `open` / `json.dump` persistence step (its
failure is the `JSONDecodeError, OSError` handler). -/
def fetch_swiftui_tree_command (resp : EvalRequest → EvalOutcome)
    (persistOk : String → Bool) (command : String) : SwiftTreeRun :=
  let args := pySplit command
  if args.length < 2 then
    { errorMsg := some "Usage: fetch_swiftui_tree <address> <output_path>",
      successMsg := none, extractSubmitted := false }
  else
    let address := args.headD ""
    let output_path := (args.drop 1).headD ""
    match run_swift_expression resp TargetCode.envCheck with
    | none =>
      { errorMsg := some notSetMsg, successMsg := none,
        extractSubmitted := false }
    | some env_val =>
      if strContains env_val "287" then
        match run_swift_expression resp (TargetCode.extractTree address) with
        | none =>
          { errorMsg := some ("Failed to call _viewDebugData() on view at " ++ address),
            successMsg := none, extractSubmitted := true }
        | some output =>
          if output = "" then
            { errorMsg := some ("Failed to call _viewDebugData() on view at " ++ address),
              successMsg := none, extractSubmitted := true }
          else if persistOk output then
            { errorMsg := none,
              successMsg := some ("SwiftUI tree saved to " ++ output_path),
              extractSubmitted := true }
          else
            { errorMsg := some "Failed to write SwiftUI tree JSON",
              successMsg := none, extractSubmitted := true }
      else
        { errorMsg := some notSetMsg, successMsg := none,
          extractSubmitted := false }

/-! ### Claims C6 and C7 -/

/-- Claim C6, counterexample.  A bridge whose target cannot accept the
submission and a bridge whose target accepted it but failed at runtime
produce the identical error result `none` at the bridge interface — the
two causes are not distinguishable there. -/
theorem bridge_failure_indistinguishable_counterexample :
    run_expression (fun _ => EvalOutcome.submitError "could not submit the expression")
      TargetCode.frontmostScan Dialect.objc = none ∧
    run_expression (fun _ => EvalOutcome.runtimeError "expression ran and failed")
      TargetCode.frontmostScan Dialect.objc = none ∧
    run_expression (fun _ => EvalOutcome.submitError "could not submit the expression")
      TargetCode.frontmostScan Dialect.objc =
    run_expression (fun _ => EvalOutcome.runtimeError "expression ran and failed")
      TargetCode.frontmostScan Dialect.objc :=
  ⟨rfl, rfl, rfl⟩

/-- Claim C6 as amended: both bridge helpers return a typed optional value
— `none` on failure, never an exception — but they collapse every failure
cause (submission failure, target-side runtime failure, timeout) to the
same `none`, so submit-failure and runtime-failure are not distinguishable
at the bridge interface: the result is `none` exactly when the outcome is
not a success. -/
theorem bridge_failure_collapse (resp : EvalRequest → EvalOutcome)
    (c : TargetCode) (d : Dialect) :
    ((run_expression resp c d = none) ↔
      ∀ o, resp (runExpressionRequest c d) ≠ EvalOutcome.success o) ∧
    ((run_swift_expression resp c = none) ↔
      ∀ o, resp (runSwiftRequest c) ≠ EvalOutcome.success o) := by
  constructor
  · constructor
    · intro hnone o hs
      unfold run_expression at hnone
      rw [hs] at hnone
      exact Option.noConfusion hnone
    · intro hfail
      unfold run_expression
      cases hr : resp (runExpressionRequest c d) with
      | success out => exact absurd hr (hfail out)
      | submitError m => rfl
      | runtimeError m => rfl
      | timedOut => rfl
  · constructor
    · intro hnone o hs
      unfold run_swift_expression at hnone
      rw [hs] at hnone
      exact Option.noConfusion hnone
    · intro hfail
      unfold run_swift_expression
      cases hr : resp (runSwiftRequest c) with
      | success out => exact absurd hr (hfail out)
      | submitError m => rfl
      | runtimeError m => rfl
      | timedOut => rfl

/-- Claim C7, counterexample.  The HandleCommand bridge call — used for
every native-dialect evaluation, e.g. the dlopen of `fetch_hierarchy.py` —
passes no expression options and hence no 60-second timeout; and a timed
out reflective evaluation yields the same result as a runtime failure, so
expiry is not reported as a distinct Timeout error. -/
theorem bridge_timeout_counterexample :
    (runExpressionRequest TargetCode.dlopenSupport Dialect.objc).timeoutMicros = none ∧
    (runExpressionRequest TargetCode.dlopenSupport Dialect.objc).timeoutMicros ≠
      some 60000000 ∧
    run_swift_expression (fun _ => EvalOutcome.timedOut) TargetCode.envCheck =
      run_swift_expression (fun _ => EvalOutcome.runtimeError "failed") TargetCode.envCheck :=
  ⟨rfl, by decide, rfl⟩

/-- Claim C7 as amended: only the reflective-dialect bridge
(`EvaluateExpression`) configures a timeout — 60 seconds — and breakpoint
suppression; the HandleCommand bridge configures no explicit timeout;
timeout expiry yields the same `none` as any other failure; and neither
helper retries: the result is a function of the single response to the one
submitted request. -/
theorem bridge_timeout_configuration (c e : TargetCode) (d : Dialect) :
    (runSwiftRequest c).timeoutMicros = some 60000000 ∧
    (runSwiftRequest c).ignoreBreakpoints = true ∧
    (runExpressionRequest e d).timeoutMicros = none ∧
    run_swift_expression (fun _ => EvalOutcome.timedOut) c = none ∧
    (∀ resp resp2 : EvalRequest → EvalOutcome,
      resp (runSwiftRequest c) = resp2 (runSwiftRequest c) →
      run_swift_expression resp c = run_swift_expression resp2 c) := by
  refine ⟨rfl, rfl, rfl, rfl, ?_⟩
  intro r1 r2 h
  unfold run_swift_expression
  rw [h]

/-- Witness for C7's no-retry conjunct: two extensionally different
responders that agree on the one submitted request produce the same
bridge result. -/
theorem bridge_timeout_configuration_witness :
    run_swift_expression (fun _ => EvalOutcome.timedOut) TargetCode.envCheck =
      run_swift_expression
        (fun r => if r.ignoreBreakpoints then EvalOutcome.timedOut
                  else EvalOutcome.submitError "unreached") TargetCode.envCheck :=
  (bridge_timeout_configuration TargetCode.envCheck TargetCode.envCheck Dialect.objc).2.2.2.2
    (fun _ => EvalOutcome.timedOut)
    (fun r => if r.ignoreBreakpoints then EvalOutcome.timedOut
              else EvalOutcome.submitError "unreached")
    rfl

/-! ### Claims C4 and C10 -/

/-- Claim C4: when the feature-flag marker is absent — the env-check
evaluation prints a value that does not contain `287`, in particular the
`NOT_SET` fallback for an unset variable — the command reports the
`SWIFTUI_VIEW_DEBUG_NOT_SET` precondition error with its remediation text
and never submits the reflective extraction expression. -/
theorem fetchSwiftUITree_precondition_gate (resp : EvalRequest → EvalOutcome)
    (persistOk : String → Bool) (command : String) (env : Option String)
    (henv : resp (runSwiftRequest TargetCode.envCheck) =
      EvalOutcome.success (envQueryResult env))
    (habs : strContains (envQueryResult env) "287" = false)
    (hargs : 2 ≤ (pySplit command).length) :
    (fetch_swiftui_tree_command resp persistOk command).errorMsg = some notSetMsg ∧
    (fetch_swiftui_tree_command resp persistOk command).extractSubmitted = false := by
  unfold fetch_swiftui_tree_command
  rw [if_neg (Nat.not_lt.mpr hargs)]
  unfold run_swift_expression
  rw [henv]
  simp [habs]

/-- A target whose `SWIFTUI_VIEW_DEBUG` variable is unset. -/
def respNotSet : EvalRequest → EvalOutcome :=
  fun _ => EvalOutcome.success "NOT_SET"

/-- Witness for C4 at an unset-variable target. -/
theorem fetchSwiftUITree_precondition_gate_witness :
    (fetch_swiftui_tree_command respNotSet (fun _ => true)
      "0x1234 /tmp/tree.json").errorMsg = some notSetMsg ∧
    (fetch_swiftui_tree_command respNotSet (fun _ => true)
      "0x1234 /tmp/tree.json").extractSubmitted = false :=
  fetchSwiftUITree_precondition_gate respNotSet (fun _ => true)
    "0x1234 /tmp/tree.json" none rfl (by decide) (by decide)

/-- Claim C10: the gate accepts exactly when the textual env-check result
contains `287` as a substring anywhere (so values such as `2870` also
pass), and an env-check evaluation that produces no output is reported as
the flag-absent precondition error, not as an evaluation error. -/
theorem fetchSwiftUITree_marker_substring_gate (resp : EvalRequest → EvalOutcome)
    (persistOk : String → Bool) (command : String) (v : String)
    (hargs : 2 ≤ (pySplit command).length) :
    (resp (runSwiftRequest TargetCode.envCheck) = EvalOutcome.success v →
      ((fetch_swiftui_tree_command resp persistOk command).extractSubmitted = true ↔
        strContains v "287" = true)) ∧
    (run_swift_expression resp TargetCode.envCheck = none →
      (fetch_swiftui_tree_command resp persistOk command).errorMsg = some notSetMsg ∧
      (fetch_swiftui_tree_command resp persistOk command).extractSubmitted = false) := by
  constructor
  · intro h
    unfold fetch_swiftui_tree_command
    rw [if_neg (Nat.not_lt.mpr hargs)]
    unfold run_swift_expression
    rw [h]
    cases hc : strContains v "287" with
    | false => simp [hc]
    | true =>
      simp only [hc, if_true]
      cases hr : resp (runSwiftRequest
          (TargetCode.extractTree ((pySplit command).headD ""))) with
      | success out =>
        by_cases ho : out = ""
        · simp [hr, ho]
        · by_cases hp : persistOk out = true
          · simp [hr, ho, hp]
          · simp [hr, ho, hp]
      | submitError m => simp [hr]
      | runtimeError m => simp [hr]
      | timedOut => simp [hr]
  · intro h
    unfold fetch_swiftui_tree_command
    rw [if_neg (Nat.not_lt.mpr hargs), h]
    simp

/-- A target whose `SWIFTUI_VIEW_DEBUG` variable holds `2870`: the marker
is accepted because `287` occurs as a substring. -/
def respEnv2870 : EvalRequest → EvalOutcome :=
  fun r =>
    match r.code with
    | TargetCode.envCheck => EvalOutcome.success "2870"
    | _ => EvalOutcome.success "[]"

/-- Witness for C10 at the `2870` target. -/
theorem fetchSwiftUITree_marker_substring_gate_witness :
    (respEnv2870 (runSwiftRequest TargetCode.envCheck) = EvalOutcome.success "2870" →
      ((fetch_swiftui_tree_command respEnv2870 (fun _ => true)
        "0x1234 /tmp/tree.json").extractSubmitted = true ↔
        strContains "2870" "287" = true)) ∧
    (run_swift_expression respEnv2870 TargetCode.envCheck = none →
      (fetch_swiftui_tree_command respEnv2870 (fun _ => true)
        "0x1234 /tmp/tree.json").errorMsg = some notSetMsg ∧
      (fetch_swiftui_tree_command respEnv2870 (fun _ => true)
        "0x1234 /tmp/tree.json").extractSubmitted = false) :=
  fetchSwiftUITree_marker_substring_gate respEnv2870 (fun _ => true)
    "0x1234 /tmp/tree.json" "2870" (by decide)

/-! ### Claims C8 and C9 -/

/-- A target where the dlopen evaluation succeeds but dlopen itself
returned NULL — i.e. the library actually failed to load — and where the
subsequent capture expression fails because the support class is missing. -/
def respNullLoad : EvalRequest → EvalOutcome :=
  fun r =>
    match r.code with
    | TargetCode.dlopenSupport => EvalOutcome.success (renderPtr 0)
    | _ => EvalOutcome.runtimeError "failed to lookup symbols: DBGViewDebuggerSupport_iOS"

/-- Claim C8, counterexample.  When the library fails to load — `dlopen`
returns NULL, printed as a successful evaluation of address `0x0` — the
command does not fail with the dlopen LoadError: the `is None` gate passes,
the hierarchy-capture expression IS submitted, and the reported error (if
any) is the capture-stage message. -/
theorem fetchHierarchy_null_handle_counterexample :
    respNullLoad (runExpressionRequest TargetCode.dlopenSupport Dialect.objc) =
      EvalOutcome.success (renderPtr 0) ∧
    (fetch_hierarchy_command respNullLoad "/tmp/hierarchy.bplist").captureSubmitted = true ∧
    (fetch_hierarchy_command respNullLoad "/tmp/hierarchy.bplist").errorMsg ≠
      some "Failed to dlopen libViewDebuggerSupport.dylib" := by
  refine ⟨rfl, by decide, by decide⟩

/-- Claim C8 as amended: the load gate tests only whether the dlopen
evaluation produced output.  If that evaluation fails, the command reports
the dlopen LoadError and the capture expression is never submitted (hence
no output file is written); any successful dlopen evaluation — including a
NULL handle from a genuinely failed load, and including the handle
returned for an already-loaded library, which is therefore not treated as
failure — passes the gate, and the capture is attempted. -/
theorem fetchHierarchy_load_gate (resp : EvalRequest → EvalOutcome)
    (command : String) (hpath : ¬ pyStrip command = "") :
    (run_expression resp TargetCode.dlopenSupport Dialect.objc = none →
      (fetch_hierarchy_command resp command).errorMsg =
        some "Failed to dlopen libViewDebuggerSupport.dylib" ∧
      (fetch_hierarchy_command resp command).captureSubmitted = false) ∧
    (∀ s, run_expression resp TargetCode.dlopenSupport Dialect.objc = some s →
      (fetch_hierarchy_command resp command).captureSubmitted = true ∧
      (fetch_hierarchy_command resp command).errorMsg ≠
        some "Failed to dlopen libViewDebuggerSupport.dylib") := by
  constructor
  · intro h
    unfold fetch_hierarchy_command
    rw [if_neg hpath, h]
    simp
  · intro s h
    unfold fetch_hierarchy_command
    rw [if_neg hpath, h]
    cases hr : run_expression resp (TargetCode.captureAndWrite (pyStrip command))
        Dialect.objc with
    | none => simp
    | some w => simp

/-- A target where the dlopen evaluation itself fails. -/
def respLoadEvalFail : EvalRequest → EvalOutcome :=
  fun _ => EvalOutcome.runtimeError "error: expression failed to parse"

/-- Witness for C8 at a target whose dlopen evaluation fails. -/
theorem fetchHierarchy_load_gate_witness :
    (run_expression respLoadEvalFail TargetCode.dlopenSupport Dialect.objc = none →
      (fetch_hierarchy_command respLoadEvalFail "/tmp/out.bplist").errorMsg =
        some "Failed to dlopen libViewDebuggerSupport.dylib" ∧
      (fetch_hierarchy_command respLoadEvalFail "/tmp/out.bplist").captureSubmitted = false) ∧
    (∀ s, run_expression respLoadEvalFail TargetCode.dlopenSupport Dialect.objc = some s →
      (fetch_hierarchy_command respLoadEvalFail "/tmp/out.bplist").captureSubmitted = true ∧
      (fetch_hierarchy_command respLoadEvalFail "/tmp/out.bplist").errorMsg ≠
        some "Failed to dlopen libViewDebuggerSupport.dylib") :=
  fetchHierarchy_load_gate respLoadEvalFail "/tmp/out.bplist" (by decide)

/-- A target whose traversal expression succeeds (address `0x10`) but
whose write expression fails at evaluation time. -/
def respWriteFail : EvalRequest → EvalOutcome :=
  fun r =>
    match r.code with
    | TargetCode.frontmostScan => EvalOutcome.success (renderPtr 16)
    | _ => EvalOutcome.runtimeError "write failed"

/-- Claim C9, counterexample.  With the write evaluation failing, the
command still reports the one-line success message naming the artifact
path, and reports no error: the persistence failure is silently
swallowed, so the success message is not reported only when the write
succeeded. -/
theorem fetchFrontmost_silent_write_failure_counterexample :
    run_expression respWriteFail
      (TargetCode.writeAddress "0x10" "/tmp/addr.txt") Dialect.objc = none ∧
    (fetch_frontmost_view_command respWriteFail "/tmp/addr.txt").successMsg =
      some "Frontmost view: 0x10 (saved to /tmp/addr.txt)" ∧
    (fetch_frontmost_view_command respWriteFail "/tmp/addr.txt").errorMsg = none := by
  refine ⟨rfl, by decide, by decide⟩

/-- Claim C9 as amended: the result of the persistence evaluation is
discarded.  Once the traversal output parses to an address, the command
reports the success message naming the artifact path and no error,
whatever the write evaluation did; the whole observable outcome is
independent of the responder's behaviour on every request other than the
traversal expression, so a write failure is silently swallowed rather
than surfaced as an IOError. -/
theorem fetchFrontmost_write_ignored (resp : EvalRequest → EvalOutcome)
    (command out address : String)
    (hpath : ¬ pyStrip command = "")
    (hout : run_expression resp TargetCode.frontmostScan Dialect.objc = some out)
    (hne : ¬ out = "")
    (haddr : extractAddress out = some address) :
    (fetch_frontmost_view_command resp command).successMsg =
      some ("Frontmost view: " ++ address ++ " (saved to " ++ pyStrip command ++ ")") ∧
    (fetch_frontmost_view_command resp command).errorMsg = none ∧
    (fetch_frontmost_view_command resp command).writeSubmitted = true ∧
    (∀ resp2 : EvalRequest → EvalOutcome,
      resp2 (runExpressionRequest TargetCode.frontmostScan Dialect.objc) =
        resp (runExpressionRequest TargetCode.frontmostScan Dialect.objc) →
      fetch_frontmost_view_command resp2 command =
        fetch_frontmost_view_command resp command) := by
  have hcmd : fetch_frontmost_view_command resp command =
      { errorMsg := none,
        successMsg := some ("Frontmost view: " ++ address ++
          " (saved to " ++ pyStrip command ++ ")"),
        writeSubmitted := true } := by
    unfold fetch_frontmost_view_command
    rw [if_neg hpath, hout]
    simp only [if_neg hne, haddr]
  refine ⟨by rw [hcmd], by rw [hcmd], by rw [hcmd], ?_⟩
  intro resp2 hag
  unfold fetch_frontmost_view_command run_expression
  rw [hag]

/-- Witness for C9 at the failing-write target. -/
theorem fetchFrontmost_write_ignored_witness :
    (fetch_frontmost_view_command respWriteFail "/tmp/addr.txt").successMsg =
      some ("Frontmost view: " ++ "0x10" ++ " (saved to " ++ pyStrip "/tmp/addr.txt" ++ ")") ∧
    (fetch_frontmost_view_command respWriteFail "/tmp/addr.txt").errorMsg = none ∧
    (fetch_frontmost_view_command respWriteFail "/tmp/addr.txt").writeSubmitted = true ∧
    (∀ resp2 : EvalRequest → EvalOutcome,
      resp2 (runExpressionRequest TargetCode.frontmostScan Dialect.objc) =
        respWriteFail (runExpressionRequest TargetCode.frontmostScan Dialect.objc) →
      fetch_frontmost_view_command resp2 "/tmp/addr.txt" =
        fetch_frontmost_view_command respWriteFail "/tmp/addr.txt") :=
  fetchFrontmost_write_ignored respWriteFail "/tmp/addr.txt" "0x10" "0x10"
    (by decide) (by decide) (by decide) (by decide)
